import Mathlib

/-!
Verification of the AI Travel Planner repository (crew.py, app.py): a
shallow embedding of the Ollama model resolver, the travel-request
record, the calculation tool, the date handling of the input paths, the
sequential task pipeline and the plan persistence, with theorems
checking the specification's claims against the embedded code.
-/

namespace TravelPlanner

/-! ### String helpers -/

theorem strAppendAssoc (a b c : String) : a ++ b ++ c = a ++ (b ++ c) :=
  String.ext (by simp)

/-- `sub` occurs verbatim inside `s`. -/
def containsStr (s sub : String) : Prop :=
  ∃ a b : String, s = a ++ (sub ++ b)

/-!
### OllamaManager (crew.py lines 42-149)

`_try_model` makes a network call to the local Ollama server (it builds
an `Ollama` handle and asks for a one-token completion), so its success
at a given model name is abstracted as an oracle `live : String → Bool`;
whether the server answers `/api/tags` at all is the boolean `running`,
and the listing the endpoint returns is the list `available`.
-/

def PREFERRED_MODELS : List String :=
  ["llama3.2:latest", "llama3.1:latest", "llama3:latest", "llama2:latest",
   "mistral:latest", "gemma2:latest", "phi3:latest"]

def notRunningError : String :=
  "❌ Ollama is not running!\nPlease start Ollama:\n  Linux/Mac: ollama serve\n  Windows: Ollama should start automatically\nDownload from: https://ollama.ai/download"

def noModelsError : String :=
  "❌ No Ollama models found!\nPlease pull a model first:\n  ollama pull llama3.2\nor\n  ollama pull mistral"

def couldNotInitError : String :=
  "❌ Could not initialize any Ollama model"

/-- The first loop of `OllamaManager.initialize` (crew.py lines 103-107):
walk the preference list, and for each name that is in the installed
list, run the one-shot liveness test; the first success is returned. -/
def tryPreferred (preferred available : List String) (live : String → Bool) : Option String :=
  match preferred with
  | [] => none
  | m :: rest =>
    if available.contains m && live m then some m
    else tryPreferred rest available live

/-- The second loop of `OllamaManager.initialize` (crew.py lines 109-112):
walk the installed models in listing order with the same liveness test. -/
def tryAnyModel (models : List String) (live : String → Bool) : Option String :=
  match models with
  | [] => none
  | m :: rest => if live m then some m else tryAnyModel rest live

/-- Embeds `OllamaManager.initialize` (crew.py lines 74-114; the source
method's name is a reserved word here).  Fails if the server is not
running or the installed list is empty; otherwise tries the preferred
models in order, then any installed model, and fails if none is live. -/
def initializeModel (running : Bool) (available : List String)
    (live : String → Bool) : Except String String :=
  if !running then Except.error notRunningError
  else if available.isEmpty then Except.error noModelsError
  else
    match tryPreferred PREFERRED_MODELS available live with
    | some m => Except.ok m
    | none =>
      match tryAnyModel available live with
      | some m => Except.ok m
      | none => Except.error couldNotInitError

theorem tryPreferred_eq_find (l available : List String) (live : String → Bool) :
    tryPreferred l available live
      = l.find? (fun m => available.contains m && live m) := by
  induction l with
  | nil => rfl
  | cons m rest ih =>
    rw [tryPreferred]
    cases h : available.contains m && live m
    · rw [if_neg (by simp), List.find?_cons_of_neg _ (by simp_all), ih]
    · rw [if_pos rfl, List.find?_cons_of_pos _ (by simp_all)]

theorem tryAnyModel_eq_find (l : List String) (live : String → Bool) :
    tryAnyModel l live = l.find? (fun m => live m) := by
  induction l with
  | nil => rfl
  | cons m rest ih =>
    rw [tryAnyModel]
    cases h : live m
    · rw [if_neg (by simp), List.find?_cons_of_neg _ (by simp_all), ih]
    · rw [if_pos rfl, List.find?_cons_of_pos _ (by simp_all)]

/-!
### TravelPlannerAgents initialization (crew.py lines 232-259)

`__init__` resolves the model first (`_initialize_llm`, which re-raises
any resolver failure) and only then creates the three agents, so a
resolver failure means no agent is ever created.
-/

structure AgentsState where
  llm : String
  agents : List String

/-- Embeds `TravelPlannerAgents.__init__` together with
`_initialize_llm` (crew.py lines 235-259): agent creation happens only
after the resolver committed to a model. -/
def agentsInit (running : Bool) (available : List String)
    (live : String → Bool) : Except String AgentsState :=
  match initializeModel running available live with
  | Except.error e => Except.error e
  | Except.ok m =>
    Except.ok { llm := m
                agents := ["destination_analyst", "local_expert", "travel_concierge"] }

/-- C1: for every installed-model list and liveness oracle, the resolver
commits to the first candidate of `PREFERRED_MODELS` (in preference-list
order) that is both installed and live — `List.find?` returns exactly the
first match, so no later preferred candidate can be chosen when an
earlier installed-and-live one exists. -/
theorem resolver_commits_to_first_preferred (available : List String)
    (live : String → Bool) (m : String)
    (h : PREFERRED_MODELS.find? (fun x => available.contains x && live x) = some m) :
    initializeModel true available live = Except.ok m := by
  have hp := List.find?_some h
  have hp' : m ∈ available ∧ live m = true := by simpa using hp
  have hne : available ≠ [] := List.ne_nil_of_mem hp'.1
  rw [initializeModel]
  rw [if_neg (by simp), if_neg (by simp [List.isEmpty_iff, hne]),
    tryPreferred_eq_find, h]

theorem resolver_commits_to_first_preferred_check :
    PREFERRED_MODELS.find?
        (fun x => (["phi3:latest", "llama3:latest"].contains x && (x == "llama3:latest")))
      = some "llama3:latest"
    ∧ initializeModel true ["phi3:latest", "llama3:latest"] (fun x => x == "llama3:latest")
      = Except.ok "llama3:latest" :=
  ⟨by decide,
   resolver_commits_to_first_preferred ["phi3:latest", "llama3:latest"]
     (fun x => x == "llama3:latest") "llama3:latest" (by decide)⟩

/-- C6: with an empty installed-model list the resolver fails with the
"no models" remediation message, and the agent-system constructor
propagates that failure, so no agent creation takes place. -/
theorem empty_model_list_fails (live : String → Bool) :
    initializeModel true [] live = Except.error noModelsError
    ∧ agentsInit true [] live = Except.error noModelsError :=
  ⟨rfl, rfl⟩

/-- C7: when no preferred model is both installed and live, the resolver
falls back to the installed models in listing order: it commits to the
first live one (`List.find?`), and fails with the last remediation
message when none is live. -/
theorem resolver_fallback (available : List String) (live : String → Bool)
    (hne : available ≠ [])
    (hpref : ∀ m ∈ PREFERRED_MODELS, ¬(m ∈ available ∧ live m = true)) :
    initializeModel true available live
      = match available.find? (fun m => live m) with
        | some m => Except.ok m
        | none => Except.error couldNotInitError := by
  have hnone : PREFERRED_MODELS.find? (fun x => available.contains x && live x) = none := by
    rw [List.find?_eq_none]
    intro x hx
    intro hc
    have hc' : x ∈ available ∧ live x = true := by simpa using hc
    exact hpref x hx hc'
  rw [initializeModel]
  rw [if_neg (by simp), if_neg (by simp [List.isEmpty_iff, hne]),
    tryPreferred_eq_find, hnone, tryAnyModel_eq_find]

theorem resolver_fallback_check :
    (["custom-model:1"] ≠ ([] : List String))
    ∧ (∀ m ∈ PREFERRED_MODELS,
        ¬(m ∈ ["custom-model:1"] ∧ (m == "custom-model:1") = true))
    ∧ initializeModel true ["custom-model:1"] (fun m => m == "custom-model:1")
      = Except.ok "custom-model:1" :=
  ⟨by decide, by decide,
   Eq.trans
     (resolver_fallback ["custom-model:1"] (fun m => m == "custom-model:1")
       (by decide) (by decide))
     rfl⟩

/-!
### TravelRequest (crew.py lines 156-175)

The dataclass takes `special_requirements` with default `None` and
`__post_init__` replaces `None` by the empty list, so after construction
the field is always a list.  The optional argument is embedded as an
`Option (List String)` constructor input; the constructed record's field
has type `List String`, so a reader of a constructed record can never
observe `None`.
-/

structure TravelRequest where
  origin : String
  destinations : List String
  start_date : String
  end_date : String
  duration : Int
  budget_range : String
  travel_style : String
  interests : List String
  group_size : Int
  special_requirements : List String

/-- Embeds the dataclass construction of `TravelRequest` together with
`__post_init__` (crew.py lines 156-172): the `special_requirements`
argument defaults to `None` (here `none`), and `None` is replaced by the
empty list. -/
def mkTravelRequest (origin : String) (destinations : List String)
    (start_date end_date : String) (duration : Int)
    (budget_range travel_style : String) (interests : List String)
    (group_size : Int)
    (special_requirements : Option (List String)) : TravelRequest :=
  { origin := origin
    destinations := destinations
    start_date := start_date
    end_date := end_date
    duration := duration
    budget_range := budget_range
    travel_style := travel_style
    interests := interests
    group_size := group_size
    special_requirements :=
      match special_requirements with
      | none => []
      | some l => l }

/-- C9: after construction the `special_requirements` field is always a
list: passing `none` (Python `None`, also the omitted default) yields the
empty list, and passing a list yields that list — by the embedded field's
type, no reader of a constructed `TravelRequest` ever observes `None`. -/
theorem special_requirements_always_list (origin : String)
    (destinations : List String) (start_date end_date : String)
    (duration : Int) (budget_range travel_style : String)
    (interests : List String) (group_size : Int) :
    (mkTravelRequest origin destinations start_date end_date duration
        budget_range travel_style interests group_size none).special_requirements = []
    ∧ ∀ l : List String,
      (mkTravelRequest origin destinations start_date end_date duration
          budget_range travel_style interests group_size (some l)).special_requirements = l :=
  ⟨rfl, fun _ => rfl⟩

/-!
### The calculation tool (crew.py lines 213-225)

`calculate_expenses` first whitelists the characters of the input, then
hands the expression to Python's `eval` — a general-purpose evaluator
that is not part of this repository and that the spec scopes out — and
renders the numeric result with the format spec `,.2f` (two decimal
places, thousands separators).  The evaluator is abstracted as an
argument `ev` returning either a numeric result or the text of the
exception it raised; the `,.2f` rendering is modelled by `pyFormat2f`.
-/

def allowed_chars : List Char := "0123456789+-*/.() ".data

def chunk3 : List Char → List (List Char)
  | a :: b :: c :: d :: rest => [a, b, c] :: chunk3 (d :: rest)
  | l => [l]

/-- The integer part's digits with a thousands separator every three
digits, as Python's `,` format option renders it. -/
def groupThousands (n : Nat) : List Char :=
  List.intercalate [','] (((chunk3 (Nat.toDigits 10 n).reverse).map List.reverse).reverse)

def pad2 (n : Nat) : List Char :=
  [Nat.digitChar (n / 10), Nat.digitChar (n % 10)]

/-- Models Python's `format(result, ',.2f')`: the value rounded to
hundredths, rendered with a grouped integer part, a decimal point and
exactly two decimal digits. -/
def pyFormat2f (q : ℚ) : String :=
  (if q < 0 then "-" else "")
    ++ (String.mk (groupThousands ((round (|q| * 100) : ℤ).toNat / 100))
        ++ ("." ++ String.mk (pad2 ((round (|q| * 100) : ℤ).toNat % 100))))

/-- Embeds `calculate_expenses` (crew.py lines 213-225): reject the input
if any character is outside the whitelist, otherwise evaluate it with
`ev` and render the result, turning an evaluation exception into a
`Calculation error:` string. -/
def calculate_expenses (ev : String → Except String ℚ) (operation : String) : String :=
  if !(operation.data.all (fun c => allowed_chars.contains c)) then
    "Error: Invalid characters in expression"
  else
    match ev operation with
    | Except.ok result => "Calculation: " ++ (operation ++ (" = " ++ pyFormat2f result))
    | Except.error e => "Calculation error: " ++ e

theorem digitChar_isDigit : ∀ k : Nat, k < 10 → (Nat.digitChar k).isDigit = true := by
  decide

/-- C5: for every evaluator and every input string, the calculation tool
returns the invalid-characters error — without consulting the evaluator —
exactly when some character of the input is outside
`0-9 + - * / ( ) . space`; in particular `"2+2; rm -rf"` is rejected. -/
theorem calculator_rejects_iff (ev : String → Except String ℚ) (operation : String) :
    (calculate_expenses ev operation = "Error: Invalid characters in expression"
      ↔ ∃ c ∈ operation.data, c ∉ allowed_chars)
    ∧ calculate_expenses ev "2+2; rm -rf" = "Error: Invalid characters in expression" := by
  constructor
  · cases hall : operation.data.all (fun c => allowed_chars.contains c)
    · constructor
      · intro _
        have := List.all_eq_false.mp hall
        simpa using this
      · intro _
        rw [calculate_expenses, hall]
        rfl
    · constructor
      · intro h
        exfalso
        rw [calculate_expenses, hall] at h
        simp only [Bool.not_true, Bool.false_eq_true, if_false] at h
        cases hev : ev operation with
        | ok v =>
          rw [hev] at h
          have h' := congrArg String.data h
          rw [String.data_append] at h'
          have hC : "Calculation: ".data = 'C' :: "alculation: ".data := rfl
          have hE : "Error: Invalid characters in expression".data
              = 'E' :: "rror: Invalid characters in expression".data := rfl
          rw [hC, hE, List.cons_append] at h'
          exact absurd (List.cons.inj h').1 (by decide)
        | error e =>
          rw [hev] at h
          have h' := congrArg String.data h
          rw [String.data_append] at h'
          have hC : "Calculation error: ".data = 'C' :: "alculation error: ".data := rfl
          have hE : "Error: Invalid characters in expression".data
              = 'E' :: "rror: Invalid characters in expression".data := rfl
          rw [hC, hE, List.cons_append] at h'
          exact absurd (List.cons.inj h').1 (by decide)
      · intro hc
        exfalso
        have := List.all_eq_true.mp hall
        obtain ⟨c, hcmem, hcnot⟩ := hc
        have := this c hcmem
        simp at this
        exact hcnot this
  · rfl

/-- C10: the calculation tool is total: whatever the evaluator does, the
result is the invalid-characters error, a `Calculation error:` message
carrying the evaluation exception's text, or a
`Calculation: <expr> = <value>` success whose value ends in a decimal
point followed by exactly two decimal digits. -/
theorem calculator_total (ev : String → Except String ℚ) (operation : String) :
    calculate_expenses ev operation = "Error: Invalid characters in expression"
    ∨ (∃ e, ev operation = Except.error e
        ∧ calculate_expenses ev operation = "Calculation error: " ++ e)
    ∨ (∃ v, ev operation = Except.ok v
        ∧ calculate_expenses ev operation
            = "Calculation: " ++ (operation ++ (" = " ++ pyFormat2f v))
        ∧ ∃ (t : String) (a b : Char), pyFormat2f v = t ++ ("." ++ String.mk [a, b])
            ∧ a.isDigit = true ∧ b.isDigit = true) := by
  rw [calculate_expenses]
  cases hall : operation.data.all (fun c => allowed_chars.contains c)
  · left
    rfl
  · simp only [Bool.not_true, Bool.false_eq_true, if_false]
    cases hev : ev operation with
    | error e => exact Or.inr (Or.inl ⟨e, rfl, rfl⟩)
    | ok v =>
      refine Or.inr (Or.inr ⟨v, rfl, rfl, ?_⟩)
      refine ⟨(if v < 0 then "-" else "")
          ++ String.mk (groupThousands ((round (|v| * 100) : ℤ).toNat / 100)),
        Nat.digitChar ((round (|v| * 100) : ℤ).toNat % 100 / 10),
        Nat.digitChar ((round (|v| * 100) : ℤ).toNat % 100 % 10), ?_, ?_, ?_⟩
      · rw [pyFormat2f, strAppendAssoc]
        rfl
      · exact digitChar_isDigit _ (by omega)
      · exact digitChar_isDigit _ (by omega)

/-!
### Dates and trip duration (crew.py lines 507-516, app.py lines 554-556)

Both input paths compute `duration = max((end - start).days, 1)` on
parsed calendar dates.  Python's subtraction of two midnight datetimes
yields a timedelta whose `.days` is the difference of
proleptic-Gregorian ordinals (`datetime.toordinal`); the ordinal is
embedded with the standard library's `_is_leap` / `_days_before_month` /
`_ymd2ord` arithmetic.
-/

structure PyDate where
  year : Nat
  month : Nat
  day : Nat
  deriving DecidableEq

def _is_leap (y : Nat) : Bool :=
  y % 4 == 0 && (y % 100 != 0 || y % 400 == 0)

def _days_in_month (y m : Nat) : Nat :=
  if m == 2 then (if _is_leap y then 29 else 28)
  else if m == 4 || m == 6 || m == 9 || m == 11 then 30
  else 31

def _days_before_month (y m : Nat) : Nat :=
  (List.range (m - 1)).foldl (fun acc i => acc + _days_in_month y (i + 1)) 0

/-- The proleptic-Gregorian ordinal of a date (1 for 0001-01-01), as
`datetime.toordinal` computes it. -/
def _ymd2ord (d : PyDate) : Nat :=
  365 * (d.year - 1) + (d.year - 1) / 4 - (d.year - 1) / 100 + (d.year - 1) / 400
    + _days_before_month d.year d.month + d.day

/-- `(e - s).days` for two midnight datetimes. -/
def timedelta_days (s e : PyDate) : Int :=
  (_ymd2ord e : Int) - (_ymd2ord s : Int)

/-- The duration both input paths compute: crew.py line 513 and app.py
line 554 are the same expression `max((end - start).days, 1)`. -/
def trip_duration (s e : PyDate) : Int :=
  max (timedelta_days s e) 1

/-- C4: the duration is `max((end - start).days, 1)`; in particular
2025-06-01 to 2025-06-08 gives 7, and equal dates give 1. -/
theorem duration_formula :
    (∀ s e : PyDate, trip_duration s e = max (timedelta_days s e) 1)
    ∧ trip_duration ⟨2025, 6, 1⟩ ⟨2025, 6, 8⟩ = 7
    ∧ ∀ d : PyDate, trip_duration d d = 1 := by
  refine ⟨fun s e => rfl, by decide, fun d => ?_⟩
  rw [trip_duration, timedelta_days, sub_self]
  rfl

/-!
### The CLI input path (crew.py lines 498-551)

`_get_user_input` parses the two dates with
`datetime.strptime(s, "%Y-%m-%d")` and falls back to a 7-day duration
when either parse raises; parses the group size with `int`, defaulting
to 1 on an empty or non-integer entry; and keeps a stripped, lowered
budget or style entry only when it is in the fixed option list.
`strptime` and `int` are Python standard-library routines outside this
repository; they are modelled here: `%Y-%m-%d` demands a four-digit
year, a one- or two-digit month and day naming a valid calendar date,
and `int` accepts an optional sign followed by digits.
-/

def isDigits (l : List Char) : Bool :=
  !l.isEmpty && l.all (fun c => c.isDigit)

def digitsToNat (l : List Char) : Nat :=
  l.foldl (fun acc c => 10 * acc + (c.toNat - '0'.toNat)) 0

/-- Splitting a character list at every dash, as Python's
`"…".split('-')` does. -/
def splitOnDash : List Char → List (List Char)
  | [] => [[]]
  | c :: rest =>
    if c == '-' then [] :: splitOnDash rest
    else
      match splitOnDash rest with
      | g :: gs => (c :: g) :: gs
      | [] => [[c]]

/-- Models `datetime.strptime(s, "%Y-%m-%d")`, returning `none` where
Python raises `ValueError`: a four-digit year, a one- or two-digit month
and day, and the triple must name a valid calendar date. -/
def strptime_date (s : String) : Option PyDate :=
  match splitOnDash s.data with
  | [y, m, d] =>
    if isDigits y && y.length == 4
        && isDigits m && decide (m.length ≤ 2)
        && isDigits d && decide (d.length ≤ 2) then
      let yn := digitsToNat y
      let mn := digitsToNat m
      let dn := digitsToNat d
      if 1 ≤ yn ∧ 1 ≤ mn ∧ mn ≤ 12 ∧ 1 ≤ dn ∧ dn ≤ _days_in_month yn mn then
        some ⟨yn, mn, dn⟩
      else none
    else none
  | _ => none

/-- The date-and-duration part of `_get_user_input` (crew.py lines
510-516): the duration of the parsed dates, or 7 when either parse
fails. -/
def duration_from_inputs (start_date end_date : String) : Int :=
  match strptime_date start_date, strptime_date end_date with
  | some s, some e => max (timedelta_days s e) 1
  | _, _ => 7

/-- Models Python `int(s)` on an already stripped entry: an optional
sign followed by one or more digits, `none` (a `ValueError`) otherwise. -/
def py_int (s : String) : Option Int :=
  match s.data with
  | '+' :: rest => if isDigits rest then some (digitsToNat rest) else none
  | '-' :: rest => if isDigits rest then some (-(digitsToNat rest : Int)) else none
  | l => if isDigits l then some (digitsToNat l) else none

/-- The group-size part of `_get_user_input` (crew.py lines 518-522):
`int(entry) if entry else 1`, with the `ValueError` handler returning 1. -/
def group_size_from_input (s : String) : Int :=
  if s.isEmpty then 1
  else
    match py_int s with
    | some n => n
    | none => 1

/-- Models Python `str.lower` on ASCII entries. -/
def pyLowerChar (c : Char) : Char :=
  if 'A' ≤ c ∧ c ≤ 'Z' then Char.ofNat (c.toNat + 32) else c

def pyLower (s : String) : String := String.mk (s.data.map pyLowerChar)

def isPySpace (c : Char) : Bool :=
  c == ' ' || c == '\t' || c == '\n' || c == '\r' || c == '\x0b' || c == '\x0c'

/-- Models Python `str.strip` with its default whitespace set. -/
def pyStrip (s : String) : String :=
  String.mk (((s.data.dropWhile isPySpace).reverse.dropWhile isPySpace).reverse)

def budget_options : List String := ["budget", "mid-range", "luxury"]

/-- The budget part of `_get_user_input` (crew.py lines 524-528) applied
to the raw entry: the entry is stripped and lowered at the prompt, and
replaced by "mid-range" when not among the options. -/
def budget_from_input (entry : String) : String :=
  if budget_options.contains (pyLower (pyStrip entry)) then pyLower (pyStrip entry)
  else "mid-range"

def style_options : List String := ["relaxed", "adventure", "cultural", "romantic", "family"]

/-- The travel-style part of `_get_user_input` (crew.py lines 530-534). -/
def travel_style_from_input (entry : String) : String :=
  if style_options.contains (pyLower (pyStrip entry)) then pyLower (pyStrip entry)
  else "relaxed"

/-- C8: in the command-line input path, unparseable dates default the
duration to 7, a non-integer group-size entry defaults the group size to
1, and a budget or travel-style entry outside the fixed enumerations
defaults to "mid-range" and "relaxed" respectively. -/
theorem cli_defaults :
    (∀ s e : String, strptime_date s = none ∨ strptime_date e = none →
      duration_from_inputs s e = 7)
    ∧ (∀ g : String, py_int g = none → group_size_from_input g = 1)
    ∧ (∀ b : String, ¬ budget_options.contains (pyLower (pyStrip b)) = true →
        budget_from_input b = "mid-range")
    ∧ (∀ t : String, ¬ style_options.contains (pyLower (pyStrip t)) = true →
        travel_style_from_input t = "relaxed") := by
  refine ⟨?_, ?_, ?_, ?_⟩
  · intro s e h
    rw [duration_from_inputs]
    rcases h with h | h
    · rw [h]
    · rw [h]
      cases strptime_date s <;> rfl
  · intro g h
    rw [group_size_from_input, h]
    split <;> rfl
  · intro b h
    rw [budget_from_input, if_neg h]
  · intro t h
    rw [travel_style_from_input, if_neg h]

theorem cli_defaults_check :
    (strptime_date "not-a-date" = none
      ∧ duration_from_inputs "not-a-date" "2025-06-08" = 7)
    ∧ (py_int "two" = none ∧ group_size_from_input "two" = 1)
    ∧ budget_from_input "extravagant" = "mid-range"
    ∧ travel_style_from_input "speedy" = "relaxed" :=
  ⟨⟨by decide, cli_defaults.1 "not-a-date" "2025-06-08" (Or.inl (by decide))⟩,
   ⟨by decide, cli_defaults.2.1 "two" (by decide)⟩,
   cli_defaults.2.2.1 "extravagant" (by decide),
   cli_defaults.2.2.2 "speedy" (by decide)⟩

/-!
### Tasks and the sequential pipeline (crew.py lines 319-458)

`create_tasks` builds three tasks whose description templates are
interpolated from the request; task 2 declares task 1 as dependency and
task 3 declares tasks 1 and 2.  The tasks are executed by crewai's
`Crew.kickoff` with `Process.sequential`, which is not part of this
repository; the executor below is modelled from the spec: tasks run
strictly in list order, each task's prompt is its description followed
by the verbatim outputs of its declared dependencies, and the overall
result is the final task's output.  A task's model invocation is the
function `llm`, whose `Except.error` case is a raised exception carrying
its message.
-/

structure MTask where
  description : String
  expected_output : String
  deps : List Nat

/-- Task 1 of `create_tasks` (crew.py lines 322-350). -/
def destination_analysis (r : TravelRequest) : MTask :=
  { description :=
      "\n            **DESTINATION ANALYSIS TASK**\n            \n            Analyze and select the best destination from: "
        ++ String.intercalate ", " r.destinations
        ++ "\n            \n            **Required Analysis:**\n            1. **Weather Conditions**: Estimate typical weather during "
        ++ r.start_date ++ " to " ++ r.end_date
        ++ "\n            2. **Cost Analysis**: Estimate flight costs from "
        ++ r.origin
        ++ " and accommodation prices\n            3. **Activities & Attractions**: Identify attractions matching these interests: "
        ++ String.intercalate ", " r.interests
        ++ "\n            4. **Budget Compatibility**: Ensure the destination fits the "
        ++ r.budget_range
        ++ " budget\n            5. **Seasonal Considerations**: Consider festivals, events, peak/off-season factors\n            \n            **Output Requirements:**\n            Provide a clear recommendation with:\n            - Best destination and why it was chosen\n            - Expected weather conditions\n            - Estimated costs (flights, accommodation per night)\n            - Top 3-5 attractions for the interests\n            - Important considerations\n            \n            Use your knowledge to provide realistic estimates. If you can use the search tool for current \n            information, do so, but if not, provide estimates based on your training data.\n            \n            Keep your final answer concise but informative (aim for 300-500 words).\n            "
    expected_output := "A clear destination recommendation with weather overview, cost estimates, and top attractions"
    deps := [] }

/-- Task 2 of `create_tasks` (crew.py lines 352-379), depending on
task 1. -/
def local_expert_insights (r : TravelRequest) : MTask :=
  { description :=
      "\n            **LOCAL EXPERT INSIGHTS TASK**\n            \n            Based on the recommended destination, provide insider knowledge:\n            \n            **Required Information:**\n            1. **Hidden Gems**: 3-5 off-the-beaten-path locations locals love\n            2. **Cultural Tips**: Key customs, etiquette, dos and don'ts\n            3. **Authentic Dining**: 3-5 local restaurants or food experiences\n            4. **Insider Secrets**: Best times to visit attractions, crowd avoidance tips\n            5. **Practical Advice**: Transportation tips, safety considerations\n            \n            **Context:**\n            - Travel Dates: "
        ++ r.start_date ++ " to " ++ r.end_date
        ++ "\n            - Style: " ++ r.travel_style
        ++ "\n            - Interests: " ++ String.intercalate ", " r.interests
        ++ "\n            - Group: " ++ toString r.group_size
        ++ " people\n            \n            Provide specific, actionable recommendations. Use your knowledge of the destination.\n            If you can search for current information, do so, otherwise use your training knowledge.\n            \n            Keep your final answer organized and concise (aim for 400-600 words).\n            "
    expected_output := "Practical local expert guide with hidden gems, dining spots, cultural tips, and insider advice"
    deps := [0] }

/-- Task 3 of `create_tasks` (crew.py lines 381-429), depending on
tasks 1 and 2. -/
def complete_itinerary (r : TravelRequest) : MTask :=
  { description :=
      "\n            **ITINERARY CREATION TASK**\n            \n            Create a "
        ++ toString r.duration
        ++ "-day itinerary incorporating previous insights:\n            \n            **Daily Schedule:**\n            For each of "
        ++ toString r.duration
        ++ " days, provide:\n            - Morning activity (8 AM - 12 PM)\n            - Afternoon activity (12 PM - 6 PM)  \n            - Evening activity (6 PM onwards)\n            - Include specific venue names and what makes them special\n            - Consider realistic timing and travel between locations\n            \n            **Accommodations:**\n            - Recommend 2-3 hotels with names and neighborhoods\n            - Explain why each suits the "
        ++ r.travel_style
        ++ " style\n            - Estimate price per night\n            \n            **Dining:**\n            - Suggest restaurants for key meals\n            - Include local specialties to try\n            - Estimate meal costs\n            \n            **Budget Summary:**\n            Provide clear cost breakdown:\n            - Flights from "
        ++ r.origin
        ++ ": $X\n            - Accommodation ("
        ++ toString r.duration
        ++ " nights): $X\n            - Food (daily estimate × "
        ++ toString r.duration
        ++ "): $X\n            - Activities/attractions: $X\n            - Transportation: $X\n            - **Total per person: $X**\n            - **Total for "
        ++ toString r.group_size
        ++ " people: $X**\n            \n            **Practical Info:**\n            - Transportation tips\n            - Packing suggestions for the weather\n            - Emergency contacts\n            \n            Context: "
        ++ r.start_date ++ " to " ++ r.end_date ++ ", " ++ r.budget_range
        ++ " budget, \n            interests: "
        ++ String.intercalate ", " r.interests
        ++ "\n            \n            Format as organized markdown. Be specific with venue names. Provide realistic cost estimates.\n            Keep each day's plan focused and realistic.\n            "
    expected_output := "Complete itinerary with daily schedule, accommodations, dining, budget breakdown, and practical tips in markdown format"
    deps := [0, 1] }

/-- Embeds `TravelPlannerAgents.create_tasks` (crew.py lines 319-431). -/
def create_tasks (r : TravelRequest) : List MTask :=
  [destination_analysis r, local_expert_insights r, complete_itinerary r]

/-- Modelled from the spec: the prompt text crewai's sequential process
hands to a task's agent — the task's description followed by the
verbatim text output of each declared dependency (the crewai framework
itself is not part of this repository). -/
def taskPrompt (t : MTask) (outputs : List String) : String :=
  t.description
    ++ String.join (t.deps.map (fun i => "\n\nContext:\n" ++ outputs.getD i ""))

/-- Modelled from the spec: `Crew.kickoff` with `Process.sequential`
runs the tasks strictly in list order, single-threaded, each task
starting only after the previous returned; a raised model exception
aborts the pipeline.  Returns the outputs in execution order. -/
def runTasks (llm : String → Except String String) :
    List MTask → List String → Except String (List String)
  | [], outs => Except.ok outs
  | t :: ts, outs =>
    match llm (taskPrompt t outs) with
    | Except.error e => Except.error e
    | Except.ok o => runTasks llm ts (outs ++ [o])

/-- Modelled from the spec: the overall crew result is the final task's
output. -/
def kickoff (llm : String → Except String String) (tasks : List MTask) :
    Except String String :=
  match runTasks llm tasks [] with
  | Except.error e => Except.error e
  | Except.ok outs => Except.ok (outs.getLastD "")

/-- Embeds `TravelPlannerAgents.plan_trip` (crew.py lines 433-458): the
crew result as a string on success, and on any exception the fixed
prefix followed by the exception's message. -/
def plan_trip (llm : String → Except String String) (r : TravelRequest) : String :=
  match kickoff llm (create_tasks r) with
  | Except.ok result => result
  | Except.error e => "Error during travel planning: " ++ e

/-- Everything of `_save_plan`'s file content before the interpolated
result (crew.py lines 570-588). -/
def save_plan_header (generated modelName : String) (r : TravelRequest) : String :=
  "# Travel Plan\n**Generated:** " ++ generated
    ++ "\n**AI Model:** " ++ modelName
    ++ "\n\n## Trip Summary\n- **Origin:** " ++ r.origin
    ++ "\n- **Destination Options:** " ++ String.intercalate ", " r.destinations
    ++ "\n- **Travel Dates:** " ++ r.start_date ++ " to " ++ r.end_date
    ++ "\n- **Duration:** " ++ toString r.duration
    ++ " days\n- **Group Size:** " ++ toString r.group_size
    ++ " travelers\n- **Budget Range:** " ++ r.budget_range
    ++ "\n- **Travel Style:** " ++ r.travel_style
    ++ "\n- **Interests:** " ++ String.intercalate ", " r.interests
    ++ "\n\n---\n\n## Travel Plan\n\n"

/-- Everything of `_save_plan`'s file content after the interpolated
result (crew.py lines 588-594). -/
def save_plan_footer : String :=
  "\n\n---\n\n*Generated by AI Travel Planner powered by Ollama*\n*All recommendations are AI-generated. Please verify details before booking.*\n"

/-- Embeds the file content `_save_plan` writes (crew.py lines 563-596):
the fixed header, the plan-result text, the fixed footer. -/
def save_plan_content (generated modelName : String) (r : TravelRequest)
    (result : String) : String :=
  save_plan_header generated modelName r ++ (result ++ save_plan_footer)

/-- Embeds the result-then-persist tail of `run_cli` (crew.py lines
487-490): the persisted file's content is built from `plan_trip`'s
return value, whatever that is. -/
def run_cli_saved_content (llm : String → Except String String)
    (generated modelName : String) (r : TravelRequest) : String :=
  save_plan_content generated modelName r (plan_trip llm r)

/-- A model invocation that always succeeds, with `f` giving the text of
each completion. -/
def pureLLM (f : String → String) : String → Except String String :=
  fun s => Except.ok (f s)

def prompt1 (r : TravelRequest) : String :=
  taskPrompt (destination_analysis r) []

def out1 (f : String → String) (r : TravelRequest) : String :=
  f (prompt1 r)

def prompt2 (f : String → String) (r : TravelRequest) : String :=
  taskPrompt (local_expert_insights r) [out1 f r]

def out2 (f : String → String) (r : TravelRequest) : String :=
  f (prompt2 f r)

def prompt3 (f : String → String) (r : TravelRequest) : String :=
  taskPrompt (complete_itinerary r) [out1 f r, out2 f r]

def out3 (f : String → String) (r : TravelRequest) : String :=
  f (prompt3 f r)

/-- C2: with every model invocation succeeding, the pipeline executes
exactly the three tasks in order 1, 2, 3 (the output list is task 1's,
then task 2's, then task 3's completion), `plan_trip` returns task 3's
output as the overall result, task 2's prompt text contains task 1's
literal output, and task 3's prompt text contains both prior outputs. -/
theorem pipeline_sequential (f : String → String) (r : TravelRequest) :
    runTasks (pureLLM f) (create_tasks r) []
      = Except.ok [out1 f r, out2 f r, out3 f r]
    ∧ plan_trip (pureLLM f) r = out3 f r
    ∧ containsStr (prompt2 f r) (out1 f r)
    ∧ containsStr (prompt3 f r) (out1 f r)
    ∧ containsStr (prompt3 f r) (out2 f r) := by
  refine ⟨rfl, rfl, ?_, ?_, ?_⟩
  · refine ⟨(local_expert_insights r).description ++ "\n\nContext:\n", "", ?_⟩
    rw [prompt2, taskPrompt]
    simp [show (local_expert_insights r).deps = [0] from rfl,
      String.empty_append, String.append_empty, strAppendAssoc, String.join]
  · refine ⟨(complete_itinerary r).description ++ "\n\nContext:\n",
      "\n\nContext:\n" ++ out2 f r, ?_⟩
    rw [prompt3, taskPrompt]
    simp [show (complete_itinerary r).deps = [0, 1] from rfl,
      String.empty_append, String.append_empty, strAppendAssoc, String.join]
  · refine ⟨((complete_itinerary r).description ++ "\n\nContext:\n" ++ out1 f r)
        ++ "\n\nContext:\n", "", ?_⟩
    rw [prompt3, taskPrompt]
    simp [show (complete_itinerary r).deps = [0, 1] from rfl,
      String.empty_append, String.append_empty, strAppendAssoc, String.join]

/-- C3: if a task's model invocation raises during pipeline execution,
`plan_trip` does not propagate the exception but returns the fixed
prefix followed by the exception's message, and the CLI run still
persists a plan file whose content contains that error text. -/
theorem pipeline_error_swallowed (llm : String → Except String String)
    (r : TravelRequest) (generated modelName e : String)
    (h : runTasks llm (create_tasks r) [] = Except.error e) :
    plan_trip llm r = "Error during travel planning: " ++ e
    ∧ containsStr (run_cli_saved_content llm generated modelName r)
        ("Error during travel planning: " ++ e) := by
  have hp : plan_trip llm r = "Error during travel planning: " ++ e := by
    rw [plan_trip, kickoff, h]
  refine ⟨hp, ?_⟩
  rw [run_cli_saved_content, hp]
  exact ⟨save_plan_header generated modelName r, save_plan_footer, rfl⟩

def sampleRequest : TravelRequest :=
  mkTravelRequest "Delhi" ["Paris", "Rome"] "2025-06-01" "2025-06-08" 7
    "mid-range" "relaxed" ["food", "history"] 2 none

theorem pipeline_error_swallowed_check :
    runTasks (fun _ => Except.error "model timed out") (create_tasks sampleRequest) []
      = Except.error "model timed out"
    ∧ (plan_trip (fun _ => Except.error "model timed out") sampleRequest
        = "Error during travel planning: " ++ "model timed out"
      ∧ containsStr
          (run_cli_saved_content (fun _ => Except.error "model timed out")
            "2025-01-01 12:00:00" "llama3.2:latest" sampleRequest)
          ("Error during travel planning: " ++ "model timed out")) :=
  ⟨rfl,
   pipeline_error_swallowed (fun _ => Except.error "model timed out") sampleRequest
     "2025-01-01 12:00:00" "llama3.2:latest" "model timed out" rfl⟩

end TravelPlanner
